import Mathlib

/-!
Verification development for the outbound event queue of the Snowplow
JavaScript tracker (src/js/out_queue.js). The module is shallowly embedded:
JSON values that can live in the queue or in localStorage are modelled by
an inductive type, the per-instance closure variables of OutQueueManager
become an explicit state record, and the asynchronous callbacks of the
network transport become explicit step functions on that state. Network
sends are recorded as an explicit action list so that properties about
which requests are issued can be stated.
-/

namespace OutQueue

/-- Model of a JavaScript value as produced by JSON.parse: the shapes that
can appear in the durable store or in the in-memory queue. -/
inductive JValue where
  | str (s : String)
  | num (n : Int)
  | bool (b : Bool)
  | null
  | obj (fields : List (String × JValue))
  | arr (elems : List JValue)
deriving Repr

/-- Model of a raw request field value handed to the queue by the tracker:
a string or a numeric value (the source coerces numbers with toString). -/
inductive RValue where
  | str (s : String)
  | num (n : Int)
deriving Repr, DecidableEq

/-- JavaScript v.toString() for a request field value (integral numbers
print in decimal, matching the JS rendering of integral doubles). -/
def RValue.asString : RValue → String
  | .str s => s
  | .num n => toString n

/-- A raw event: a flat mapping of field name to value, in insertion
order (JS object key order for non-integer keys). -/
def Request := List (String × RValue)

/-- UTF-16 code units contributed by one character: JS String.length
counts code units, so astral characters count twice. -/
def charUtf16Units (c : Char) : Nat :=
  if c.toNat < 65536 then 1 else 2

/-- JS string length (String.prototype.length): UTF-16 code units. -/
def jsLength (s : String) : Nat :=
  (s.data.map charUtf16Units).sum

/-- UTF-8 bytes contributed by one character. -/
def utf8Bytes (c : Char) : Nat :=
  if c.toNat < 128 then 1
  else if c.toNat < 2048 then 2
  else if c.toNat < 65536 then 3
  else 4

/-- Length of a string in bytes (UTF-8). This is the spec-side notion of
byte length, used to compare against what the source computes. -/
def byteLength (s : String) : Nat :=
  (s.data.map utf8Bytes).sum

/-- Lower-case hex digit, for JSON control-character escapes. -/
def hexDigit (n : Nat) : Char :=
  if n < 10 then Char.ofNat (48 + n) else Char.ofNat (87 + n)

/-- JSON.stringify escaping of one character inside a string literal. -/
def escChar (c : Char) : String :=
  if c = '"' then "\\\""
  else if c = '\\' then "\\\\"
  else if c = Char.ofNat 8 then "\\b"
  else if c = Char.ofNat 9 then "\\t"
  else if c = Char.ofNat 10 then "\\n"
  else if c = Char.ofNat 12 then "\\f"
  else if c = Char.ofNat 13 then "\\r"
  else if c.toNat < 32 then
    "\\u00" ++ String.singleton (hexDigit (c.toNat / 16)) ++ String.singleton (hexDigit (c.toNat % 16))
  else String.singleton c

/-- JSON.stringify escaping of a whole string body. -/
def jsonEscape (s : String) : String :=
  String.join (s.data.map escChar)

/-- A JSON string literal: quotes around the escaped body. -/
def jsonQuote (s : String) : String :=
  "\"" ++ jsonEscape s ++ "\""

/-- JSON.stringify of a flat string-to-string object, keys in insertion
order: used by getBody for the memorySize computation and by the durable
store writes. -/
def jsonStringifyStrObj (ps : List (String × String)) : String :=
  "\x7b" ++ String.intercalate "," (ps.map fun p => jsonQuote p.1 ++ ":" ++ jsonQuote p.2) ++ "\x7d"

/-- The two low-priority query-string keys of getQuerystring. -/
def lowPriorityKey (k : String) : Bool :=
  k = "co" || k = "cx"

/-- getQuerystring: question mark, then key=value pairs joined by an
ampersand with both sides percent-encoded, the co and cx fields forced to
the end (in that order, values encoded, keys emitted raw as in the source).
The percent encoder is the ambient browser encodeURIComponent, passed in
as a function. -/
def getQuerystring (enc : String → String) (request : List (String × RValue)) : String :=
  let main := request.filter fun p => !lowPriorityKey p.1
  let mainPart := String.intercalate "&" (main.map fun p => enc p.1 ++ "=" ++ enc p.2.asString)
  let coPart :=
    match request.lookup "co" with
    | some v => "&co=" ++ enc v.asString
    | none => ""
  let cxPart :=
    match request.lookup "cx" with
    | some v => "&cx=" ++ enc v.asString
    | none => ""
  "?" ++ mainPart ++ coPart ++ cxPart

/-- Result of getBody: the string-coerced field mapping and the size the
source stores alongside it. -/
structure Body where
  cleanedRequest : List (String × String)
  memorySize : Int
deriving Repr, DecidableEq

/-- getBody: coerce every field value to its string form and take the JS
length of the JSON-serialized mapping (json2.stringify(cleanedRequest).length,
which counts UTF-16 code units). -/
def getBody (request : List (String × RValue)) : Body :=
  let cleanedRequest := request.map fun p => (p.1, p.2.asString)
  { cleanedRequest := cleanedRequest
    memorySize := (jsLength (jsonStringifyStrObj cleanedRequest) : Int) }

/-- The queue entry object pushed in POST mode:
a cleanedRequest field holding the string mapping and a memorySize field. -/
def Body.toJValue (b : Body) : JValue :=
  .obj [("cleanedRequest", .obj (b.cleanedRequest.map fun p => (p.1, .str p.2))),
        ("memorySize", .num b.memorySize)]

/-- Collector path suffix chosen at construction from the transport mode. -/
def path (usePost : Bool) : String :=
  if usePost then "/com.snowplowanalytics.snowplow/tp2" else "/i"

/-- Per-instance configuration: the closure variables of OutQueueManager
that are fixed after construction, plus the environment capabilities the
instance closes over (the percent encoder and whether localStorage writes
succeed). -/
structure Config where
  usePost : Bool
  useLocalStorage : Bool
  bufferSize : Nat
  maxBytes : Int
  queueName : String
  enc : String → String
  storeWritable : Bool

/-- The mutable state of one OutQueueManager instance: the queue, the
draining flag, the lazily-set collector URL, and the (parsed view of the)
localStorage map the instance reads and writes. -/
structure EngineState where
  cfg : Config
  outQueue : List JValue
  executingQueue : Bool
  configCollectorUrl : Option String
  storage : String → Option JValue

/-- A network send issued by the engine: a POST of a batch envelope, or a
GET issued by assigning an image source (url plus the head entry). -/
inductive SendAction where
  | post (url : String) (numberToSend : Nat) (body : JValue)
  | getImg (url : String) (request : JValue)

/-- Result of running executeQueue: the new state, the sends issued
synchronously, and the exception thrown if any. -/
structure ExecResult where
  st : EngineState
  sends : List SendAction
  err : Option String

/-- Result of running enqueueRequest: new state, sends issued by a
triggered drain, whether the size-limit warning fired, and any exception
propagating out of the triggered drain. -/
structure EnqResult where
  st : EngineState
  sends : List SendAction
  warned : Bool
  err : Option String

/-- helpers.attemptWriteLocalStorage: rewrite the slot under the queue
name when the store accepts writes; report success. -/
def attemptWriteLocalStorage (st : EngineState) (v : JValue) : EngineState × Bool :=
  if st.cfg.storeWritable then
    ({ st with storage := fun k => if k = st.cfg.queueName then some v else st.storage k }, true)
  else (st, false)

/-- The failsafe scrub condition of executeQueue: typeof of the value is
neither string nor object. In JS, null and arrays have typeof object, so
only numbers and booleans fail the test. -/
def jsTypeofIsStringOrObject : JValue → Bool
  | .str _ => true
  | .obj _ => true
  | .null => true
  | .arr _ => true
  | .num _ => false
  | .bool _ => false

/-- The while loop at the top of executeQueue: shift leading entries whose
typeof is neither string nor object. -/
def scrubQueue (q : List JValue) : List JValue :=
  q.dropWhile fun e => !jsTypeofIsStringOrObject e

/-- Reading q[i].memorySize: defined when the entry is an object whose
memorySize field is a number; anything else behaves as NaN in the byte
count (modelled as none). -/
def memorySizeOf : JValue → Option Int
  | .obj fields =>
      match fields.lookup "memorySize" with
      | some (.num n) => some n
      | _ => none
  | _ => none

/-- JS addition with NaN propagation (none is NaN). -/
def jsAdd : Option Int → Option Int → Option Int
  | some a, some b => some (a + b)
  | _, _ => none

/-- JS comparison byteCount >= maxBytes: false when byteCount is NaN. -/
def jsGe (a : Option Int) (m : Int) : Bool :=
  match a with
  | some x => decide (m ≤ x)
  | none => false

/-- The loop body of chooseHowManyToExecute with the running byteCount
made explicit. -/
def chooseAux (maxBytes : Int) : Option Int → List JValue → Nat
  | _, [] => 0
  | bc, e :: rest =>
      let bc2 := jsAdd bc (memorySizeOf e)
      if jsGe bc2 maxBytes then 0 else 1 + chooseAux maxBytes bc2 rest

/-- chooseHowManyToExecute: walk the queue from the head accumulating
memorySize into byteCount, stop before the entry that makes byteCount
reach maxBytes, return how many entries were passed. -/
def chooseHowManyToExecute (maxBytes : Int) (q : List JValue) : Nat :=
  chooseAux maxBytes (some 0) q

/-- Reading x.cleanedRequest when building the batch (null models the
undefined produced by a corrupt entry). -/
def cleanedRequestOf : JValue → JValue
  | .obj fields => (fields.lookup "cleanedRequest").getD .null
  | _ => .null

/-- The fixed schema identifier of the batch envelope. -/
def schemaStr : String :=
  "iglu:com.snowplowanalytics.snowplow/payload_data/jsonschema/1-0-2"

/-- The batch envelope sent by POST. -/
def batchRequestOf (batch : List JValue) : JValue :=
  .obj [("schema", .str schemaStr), ("data", .arr batch)]

/-- The exception message thrown when no collector URL is configured. -/
def noCollectorMsg : String :=
  "No Snowplow collector configured, cannot track"

/-- executeQueue: scrub the queue head, stop (back to idle) when empty,
throw when no collector URL is configured, otherwise mark the engine as
executing and issue one send (a POST of the chosen batch when usePost and
the batch is non-empty, else a GET of the head entry). The outcome of the
send arrives later through the callback step functions below. -/
def executeQueue (st : EngineState) : ExecResult :=
  let q := scrubQueue st.outQueue
  if q.isEmpty then
    { st := { st with outQueue := q, executingQueue := false }, sends := [], err := none }
  else
    match st.configCollectorUrl with
    | none => { st := { st with outQueue := q }, sends := [], err := some noCollectorMsg }
    | some url =>
        let st1 := { st with outQueue := q, executingQueue := true }
        if st.cfg.usePost then
          let k := chooseHowManyToExecute st.cfg.maxBytes q
          let batch := (q.take k).map cleanedRequestOf
          { st := st1
            sends := if 0 < batch.length then [SendAction.post url k (batchRequestOf batch)] else []
            err := none }
        else
          { st := st1, sends := [SendAction.getImg url (q.headD .null)], err := none }

/-- The value enqueueRequest pushes for the current transport mode. -/
def enqEntry (cfg : Config) (request : List (String × RValue)) : JValue :=
  if cfg.usePost then (getBody request).toJValue
  else .str (getQuerystring cfg.enc request)

/-- enqueueRequest: in POST mode reject (with a warning) an event whose
memorySize reaches maxBytes; otherwise push the encoded entry from the
if/else branch and then push it a second time through the unconditional
push that follows, set the collector URL, attempt the localStorage write
when enabled, and start a drain when not already executing and either the
write failed or the queue reached bufferSize. -/
def enqueueRequest (request : List (String × RValue)) (url : String) (st : EngineState) : EnqResult :=
  let cfg := st.cfg
  if cfg.usePost = true ∧ cfg.maxBytes ≤ (getBody request).memorySize then
    { st := st, sends := [], warned := true, err := none }
  else
    let e := enqEntry cfg request
    let st1 := { st with
      outQueue := st.outQueue ++ [e, e]
      configCollectorUrl := some (url ++ path cfg.usePost) }
    let ws := if cfg.useLocalStorage then attemptWriteLocalStorage st1 (.arr st1.outQueue)
              else (st1, false)
    if ws.1.executingQueue = false ∧ (ws.2 = false ∨ cfg.bufferSize ≤ ws.1.outQueue.length) then
      let r := executeQueue ws.1
      { st := r.st, sends := r.sends, warned := false, err := r.err }
    else
      { st := ws.1, sends := [], warned := false, err := none }

/-- Persist the current queue when localStorage use is enabled (the write
performed inside the success callbacks). -/
def persistQueue (st : EngineState) : EngineState :=
  if st.cfg.useLocalStorage then (attemptWriteLocalStorage st (.arr st.outQueue)).1 else st

/-- The POST success callback (readyState 4, status in [200,400)): shift
numberToSend entries, persist, and recurse into executeQueue. -/
def xhrOnSuccess (numberToSend : Nat) (st : EngineState) : ExecResult :=
  executeQueue (persistQueue { st with outQueue := st.outQueue.drop numberToSend })

/-- The POST rejection callback (readyState 4, status at least 400):
clear the executing flag, touch nothing else. -/
def xhrOnFailure (st : EngineState) : EngineState :=
  { st with executingQueue := false }

/-- The POST timeout callback (5 seconds): abort and clear the flag. -/
def xhrOnTimeout (st : EngineState) : EngineState :=
  { st with executingQueue := false }

/-- The image onload callback in GET mode: shift one entry, persist, and
recurse into executeQueue. -/
def imageOnLoad (st : EngineState) : ExecResult :=
  executeQueue (persistQueue { st with outQueue := st.outQueue.drop 1 })

/-- The image onerror callback in GET mode: clear the executing flag. -/
def imageOnError (st : EngineState) : EngineState :=
  { st with executingQueue := false }

/-- The flush closure registered with the shared tracker state: start a
drain only when not already executing. -/
def bufferFlusher (st : EngineState) : ExecResult :=
  if st.executingQueue then { st := st, sends := [], err := none } else executeQueue st

/-- The localStorage key of one queue instance. -/
def queueNameOf (functionName namespaceName : String) (usePost : Bool) : String :=
  String.intercalate "_" ["snowplowOutQueue", functionName, namespaceName,
    if usePost then "post" else "get"]

/-- Load the stored queue at construction: parse the stored value and keep
it only when it is an array; anything else (missing, corrupt, non-array)
yields the empty queue. -/
def loadQueue (storage : String → Option JValue) (useLocalStorage : Bool)
    (queueName : String) : List JValue :=
  if useLocalStorage then
    match storage queueName with
    | some (.arr xs) => xs
    | _ => []
  else []

/-- OutQueueManager: construct one queue instance. usePost is downgraded
when the environment lacks CORS XMLHttpRequest support; bufferSize falls
back to 1 unless localStorage is accessible and enabled, POST is in use
and the requested size is non-zero; the stored queue is loaded under the
name derived from the function name, the namespace and the transport
mode. -/
def OutQueueManager (functionName namespaceName : String)
    (useLocalStorage usePostPref : Bool) (bufferSizePref : Nat)
    (corsSupported lsAccessible : Bool) (enc : String → String)
    (storeWritable : Bool) (storage : String → Option JValue) : EngineState :=
  let usePost := usePostPref && corsSupported
  let bufferSize :=
    if lsAccessible && useLocalStorage && usePost && (bufferSizePref != 0)
    then bufferSizePref else 1
  let queueName := queueNameOf functionName namespaceName usePost
  { cfg := { usePost := usePost, useLocalStorage := useLocalStorage,
             bufferSize := bufferSize, maxBytes := 40000,
             queueName := queueName, enc := enc, storeWritable := storeWritable }
    outQueue := loadQueue storage useLocalStorage queueName
    executingQueue := false
    configCollectorUrl := none
    storage := storage }

/-- Spec-side predicate (section 3 of the spec): a recognized Entry
variant is, in Batch mode, an object carrying a cleanedRequest mapping
with string values together with a numeric memorySize field, and in
Beacon mode a pre-encoded query string. -/
def isStringField : (String × JValue) → Bool
  | (_, .str _) => true
  | _ => false

/-- Whether a stored value is a recognized Entry variant for the given
transport mode (spec-side notion, compared against the scrub the source
actually performs). -/
def isRecognizedEntry (usePost : Bool) : JValue → Bool
  | .str _ => !usePost
  | .obj fields =>
      usePost &&
      (match fields.lookup "cleanedRequest" with
       | some (.obj m) => m.all isStringField
       | _ => false) &&
      (match fields.lookup "memorySize" with
       | some (.num _) => true
       | _ => false)
  | _ => false

/-- Model of encodeURIComponent restricted to inputs made of unreserved
characters (alphanumerics), which it maps to themselves. -/
def identityEnc : String → String := fun s => s

/-- A fresh GET-mode instance with persistence enabled, empty store. -/
def c1GetState : EngineState :=
  OutQueueManager "snowplow" "ns1" true false 1 false true identityEnc true (fun _ => none)

/-- A POST-mode instance observed while a send is outstanding: the
executing flag is set and one well-formed entry is queued. -/
def c2State : EngineState :=
  { cfg := { usePost := true, useLocalStorage := false, bufferSize := 1, maxBytes := 40000,
             queueName := "snowplowOutQueue_snowplow_ns1_post", enc := identityEnc,
             storeWritable := true }
    outQueue := [(getBody [("e", RValue.str "pv")]).toJValue]
    executingQueue := true
    configCollectorUrl := some "http://collector.example/com.snowplowanalytics.snowplow/tp2"
    storage := fun _ => none }

/-- A POST-mode instance whose queue holds a single malformed (numeric)
entry while the durable store holds the matching serialized record. -/
def c3State : EngineState :=
  { cfg := { usePost := true, useLocalStorage := true, bufferSize := 1, maxBytes := 40000,
             queueName := "snowplowOutQueue_snowplow_ns1_post", enc := identityEnc,
             storeWritable := true }
    outQueue := [JValue.num 5]
    executingQueue := false
    configCollectorUrl := some "http://collector.example/com.snowplowanalytics.snowplow/tp2"
    storage := fun k => if k = "snowplowOutQueue_snowplow_ns1_post"
               then some (.arr [JValue.num 5]) else none }

/-- A POST-mode queue entry of a given declared memorySize. -/
def sizeEntry (n : Int) : JValue :=
  .obj [("cleanedRequest", .obj []), ("memorySize", .num n)]

/-- A POST-mode instance with two valid queued entries and persistence
enabled, as left behind after a send of one entry was issued. -/
def c5State : EngineState :=
  { cfg := { usePost := true, useLocalStorage := true, bufferSize := 1, maxBytes := 40000,
             queueName := "snowplowOutQueue_snowplow_ns1_post", enc := identityEnc,
             storeWritable := true }
    outQueue := [(getBody [("e", RValue.str "pv")]).toJValue,
                 (getBody [("e", RValue.str "pp")]).toJValue]
    executingQueue := true
    configCollectorUrl := some "http://collector.example/com.snowplowanalytics.snowplow/tp2"
    storage := fun _ => none }

/-- A POST-mode instance whose queue starts with a malformed numeric
entry followed by a valid one. -/
def c6State : EngineState :=
  { cfg := { usePost := false, useLocalStorage := false, bufferSize := 1, maxBytes := 40000,
             queueName := "snowplowOutQueue_snowplow_ns1_get", enc := identityEnc,
             storeWritable := true }
    outQueue := [JValue.num 7, JValue.str "?e=pv"]
    executingQueue := false
    configCollectorUrl := some "http://collector.example/i"
    storage := fun _ => none }

/-- A POST-mode instance with a small byte budget, used to exercise the
capacity rejection without constructing a forty-thousand-byte event. -/
def c7State : EngineState :=
  { cfg := { usePost := true, useLocalStorage := true, bufferSize := 1, maxBytes := 9,
             queueName := "snowplowOutQueue_snowplow_ns1_post", enc := identityEnc,
             storeWritable := true }
    outQueue := []
    executingQueue := false
    configCollectorUrl := none
    storage := fun _ => none }

/-- A GET-mode instance with a non-empty queue and no collector URL. -/
def c9State : EngineState :=
  { cfg := { usePost := false, useLocalStorage := false, bufferSize := 1, maxBytes := 40000,
             queueName := "snowplowOutQueue_snowplow_ns1_get", enc := identityEnc,
             storeWritable := true }
    outQueue := [JValue.str "?e=pv"]
    executingQueue := false
    configCollectorUrl := none
    storage := fun _ => none }

/-! Helper lemmas about the step functions. -/

theorem attemptWrite_cfg (st : EngineState) (v : JValue) :
    (attemptWriteLocalStorage st v).1.cfg = st.cfg := by
  unfold attemptWriteLocalStorage; split <;> rfl

theorem attemptWrite_outQueue (st : EngineState) (v : JValue) :
    (attemptWriteLocalStorage st v).1.outQueue = st.outQueue := by
  unfold attemptWriteLocalStorage; split <;> rfl

theorem attemptWrite_executing (st : EngineState) (v : JValue) :
    (attemptWriteLocalStorage st v).1.executingQueue = st.executingQueue := by
  unfold attemptWriteLocalStorage; split <;> rfl

theorem attemptWrite_url (st : EngineState) (v : JValue) :
    (attemptWriteLocalStorage st v).1.configCollectorUrl = st.configCollectorUrl := by
  unfold attemptWriteLocalStorage; split <;> rfl

theorem attemptWrite_storage_hit (st : EngineState) (v : JValue)
    (hw : st.cfg.storeWritable = true) :
    (attemptWriteLocalStorage st v).1.storage st.cfg.queueName = some v := by
  unfold attemptWriteLocalStorage
  rw [if_pos hw]
  simp

theorem executeQueue_storage (st : EngineState) :
    (executeQueue st).st.storage = st.storage := by
  unfold executeQueue
  dsimp only
  split
  · rfl
  · split
    · rfl
    · split <;> rfl

theorem executeQueue_outQueue (st : EngineState) :
    (executeQueue st).st.outQueue = scrubQueue st.outQueue := by
  unfold executeQueue
  dsimp only
  split
  · rfl
  · split
    · rfl
    · split <;> rfl

theorem executeQueue_err_none (st : EngineState) (u : String)
    (hu : st.configCollectorUrl = some u) :
    (executeQueue st).err = none := by
  unfold executeQueue
  rw [hu]
  dsimp only
  split
  · rfl
  · split <;> rfl

theorem executeQueue_cfg (st : EngineState) :
    (executeQueue st).st.cfg = st.cfg := by
  unfold executeQueue
  dsimp only
  split
  · rfl
  · split
    · rfl
    · split <;> rfl

theorem executeQueue_url (st : EngineState) :
    (executeQueue st).st.configCollectorUrl = st.configCollectorUrl := by
  unfold executeQueue
  dsimp only
  split
  · rfl
  · split
    · rfl
    · split <;> rfl

theorem executeQueue_executing (st : EngineState) (u : String)
    (hu : st.configCollectorUrl = some u) :
    (executeQueue st).st.executingQueue = !(scrubQueue st.outQueue).isEmpty := by
  unfold executeQueue
  rw [hu]
  dsimp only
  split
  · rename_i h; rw [h]; rfl
  · rename_i h
    have hfalse : (scrubQueue st.outQueue).isEmpty = false := by
      simpa using h
    rw [hfalse]
    split <;> rfl

theorem executeQueue_sends_empty (st : EngineState)
    (h : scrubQueue st.outQueue = []) :
    (executeQueue st).sends = [] := by
  unfold executeQueue
  dsimp only
  rw [h]
  rfl

theorem persistQueue_cfg (st : EngineState) : (persistQueue st).cfg = st.cfg := by
  unfold persistQueue
  split
  · exact attemptWrite_cfg _ _
  · rfl

theorem persistQueue_outQueue (st : EngineState) :
    (persistQueue st).outQueue = st.outQueue := by
  unfold persistQueue
  split
  · exact attemptWrite_outQueue _ _
  · rfl

theorem persistQueue_url (st : EngineState) :
    (persistQueue st).configCollectorUrl = st.configCollectorUrl := by
  unfold persistQueue
  split
  · exact attemptWrite_url _ _
  · rfl

theorem persistQueue_storage_hit (st : EngineState)
    (hl : st.cfg.useLocalStorage = true) (hw : st.cfg.storeWritable = true) :
    (persistQueue st).storage st.cfg.queueName = some (.arr st.outQueue) := by
  unfold persistQueue
  rw [if_pos hl]
  exact attemptWrite_storage_hit _ _ hw

/-! Characterization of the batching loop. -/

theorem chooseAux_spec (maxB : Int) (q : List JValue) :
    ∀ (sizes : List Int) (c : Int),
      q.map memorySizeOf = sizes.map some →
      ((∀ i, i < chooseAux maxB (some c) q → c + ((sizes.take (i+1)).sum) < maxB) ∧
       (chooseAux maxB (some c) q = q.length ∨
         maxB ≤ c + ((sizes.take (chooseAux maxB (some c) q + 1)).sum))) := by
  induction q with
  | nil =>
    intro sizes c h
    have hs : sizes = [] := by
      cases sizes with
      | nil => rfl
      | cons s ss => simp at h
    subst hs
    exact ⟨fun i hi => by simp [chooseAux] at hi, Or.inl rfl⟩
  | cons e rest ih =>
    intro sizes c h
    cases sizes with
    | nil => simp at h
    | cons s ss =>
      simp only [List.map_cons, List.cons.injEq] at h
      obtain ⟨h1, h2⟩ := h
      have hstep : chooseAux maxB (some c) (e :: rest)
          = if maxB ≤ c + s then 0 else 1 + chooseAux maxB (some (c + s)) rest := by
        simp [chooseAux, h1, jsAdd, jsGe]
      by_cases hge : maxB ≤ c + s
      · rw [hstep, if_pos hge]
        refine ⟨fun i hi => absurd hi (Nat.not_lt_zero i), Or.inr ?_⟩
        simpa using hge
      · rw [hstep, if_neg hge]
        obtain ⟨ih1, ih2⟩ := ih ss (c + s) h2
        constructor
        · intro i hi
          cases i with
          | zero =>
            simp only [List.take_succ_cons, List.take_zero, List.sum_cons, List.sum_nil]
            omega
          | succ j =>
            have hj : j < chooseAux maxB (some (c + s)) rest := by omega
            have := ih1 j hj
            simp only [List.take_succ_cons, List.sum_cons]
            omega
        · rcases ih2 with hk | hge2
          · exact Or.inl (by simp [hk]; omega)
          · right
            have hsucc : 1 + chooseAux maxB (some (c + s)) rest + 1
                = (chooseAux maxB (some (c + s)) rest + 1) + 1 := by omega
            rw [hsucc]
            simp only [List.take_succ_cons, List.sum_cons]
            omega

/-- C4: chooseHowManyToExecute starts at the head and greedily accumulates
the memorySize of consecutive entries: every prefix it includes stays
strictly under the byte budget, and it stops exactly before the entry
whose inclusion would make the running total reach or exceed the budget
(or at the end of the queue); in particular on five entries of size 10000
with budget 25000 it returns 2. -/
theorem c4_select_batch (maxB : Int) (q : List JValue) (sizes : List Int)
    (h : q.map memorySizeOf = sizes.map some) :
    ((∀ i, i < chooseHowManyToExecute maxB q → ((sizes.take (i+1)).sum) < maxB) ∧
     (chooseHowManyToExecute maxB q = q.length ∨
       maxB ≤ ((sizes.take (chooseHowManyToExecute maxB q + 1)).sum))) ∧
    chooseHowManyToExecute 25000 (List.replicate 5 (sizeEntry 10000)) = 2 := by
  have hs := chooseAux_spec maxB q sizes 0 h
  simp only [chooseHowManyToExecute]
  refine ⟨⟨fun i hi => ?_, ?_⟩, rfl⟩
  · have := hs.1 i hi
    omega
  · rcases hs.2 with h1 | h2
    · exact Or.inl h1
    · right; omega

theorem c4_select_batch_witness :
    chooseHowManyToExecute 25000 (List.replicate 5 (sizeEntry 10000)) = 2 :=
  (c4_select_batch 25000 (List.replicate 5 (sizeEntry 10000))
    (List.replicate 5 (10000 : Int)) rfl).2

/-- C1: evaluation of the code at the failing input. One enqueue call in
GET mode with persistence enabled appends the encoded entry twice (the
push inside the transport branch and the unconditional push that follows
it), so after a single call the queue and the durable record hold two
identical entries, and a fresh instance constructed with the same
identity loads two entries, not one. -/
theorem c1_enqueue_duplicate_push :
    (enqueueRequest [("e", RValue.str "pv")] "http://collector.example" c1GetState).st.outQueue
      = [JValue.str "?e=pv", JValue.str "?e=pv"] ∧
    (OutQueueManager "snowplow" "ns1" true false 1 false true identityEnc true
        (enqueueRequest [("e", RValue.str "pv")] "http://collector.example" c1GetState).st.storage).outQueue
      = [JValue.str "?e=pv", JValue.str "?e=pv"] :=
  ⟨rfl, rfl⟩

/-- C2 counterexample: invoking executeQueue while the engine is already
draining (executingQueue set, a send outstanding) is not a no-op: it
issues another network send for the same head entries. -/
theorem c2_executeQueue_reentry :
    c2State.executingQueue = true ∧ (executeQueue c2State).sends.length = 1 :=
  ⟨rfl, rfl⟩

/-- C2 amended: the guard against concurrent drains lives in the callers,
not in the drain operation itself: the enqueue trigger and the registered
flush closure invoke executeQueue only when the engine is not already
executing, so neither issues a send while one is outstanding. -/
theorem c2_drain_guard :
    (∀ (request : List (String × RValue)) (url : String) (st : EngineState),
        st.executingQueue = true → (enqueueRequest request url st).sends = []) ∧
    (∀ st : EngineState, st.executingQueue = true →
        bufferFlusher st = { st := st, sends := [], err := none }) := by
  constructor
  · intro request url st h
    unfold enqueueRequest
    dsimp only
    split
    · rfl
    · by_cases hl : st.cfg.useLocalStorage = true
      · rw [if_pos hl]
        split
        · rename_i hcond
          exfalso
          have hx := hcond.1
          rw [attemptWrite_executing] at hx
          simp [h] at hx
        · rfl
      · rw [if_neg hl]
        split
        · rename_i hcond
          exfalso
          have hx := hcond.1
          simp [h] at hx
        · rfl
  · intro st h
    simp [bufferFlusher, h]

theorem c2_drain_guard_witness :
    (enqueueRequest [("e", RValue.str "pv")] "http://collector.example" c2State).sends = [] ∧
    bufferFlusher c2State = { st := c2State, sends := [], err := none } :=
  ⟨c2_drain_guard.1 _ _ _ rfl, c2_drain_guard.2 _ rfl⟩

/-- C3 counterexample: the drain-time scrub changes the queue contents
(here it removes the single malformed entry, leaving an empty queue) but
the durable store is not rewritten: it still holds the old one-entry
record even though persistence is enabled and writable. -/
theorem c3_scrub_no_persist :
    c3State.cfg.useLocalStorage = true ∧
    c3State.cfg.storeWritable = true ∧
    (executeQueue c3State).st.outQueue = [] ∧
    (executeQueue c3State).st.storage c3State.cfg.queueName = some (.arr [JValue.num 5]) :=
  ⟨rfl, rfl, rfl, rfl⟩

/-- C3 amended: the durable store is rewritten with the updated queue
after the enqueue append and after the removal of accepted entries in the
send-success callbacks (when persistence is enabled and the write
succeeds); the drain-time scrub, and executeQueue generally, never write
the store, which catches up only at the next persisting operation. -/
theorem c3_persistence_discipline :
    (∀ (request : List (String × RValue)) (url : String) (st : EngineState),
      st.cfg.useLocalStorage = true → st.cfg.storeWritable = true →
      (st.cfg.usePost = true → (getBody request).memorySize < st.cfg.maxBytes) →
      (enqueueRequest request url st).st.storage st.cfg.queueName
        = some (.arr (st.outQueue ++ [enqEntry st.cfg request, enqEntry st.cfg request]))) ∧
    (∀ (st : EngineState) (k : Nat),
      st.cfg.useLocalStorage = true → st.cfg.storeWritable = true →
      (xhrOnSuccess k st).st.storage st.cfg.queueName = some (.arr (st.outQueue.drop k)) ∧
      (imageOnLoad st).st.storage st.cfg.queueName = some (.arr (st.outQueue.drop 1))) ∧
    (∀ st : EngineState, (executeQueue st).st.storage = st.storage) := by
  refine ⟨?_, ?_, executeQueue_storage⟩
  · intro request url st hl hw hno
    unfold enqueueRequest
    dsimp only
    rw [if_neg (by rintro ⟨hp, hge⟩; have := hno hp; omega)]
    rw [if_pos hl]
    split
    · rw [executeQueue_storage]
      exact attemptWrite_storage_hit _ _ hw
    · exact attemptWrite_storage_hit _ _ hw
  · intro st k hl hw
    constructor
    · unfold xhrOnSuccess
      rw [executeQueue_storage]
      have := persistQueue_storage_hit { st with outQueue := st.outQueue.drop k } hl hw
      simpa using this
    · unfold imageOnLoad
      rw [executeQueue_storage]
      have := persistQueue_storage_hit { st with outQueue := st.outQueue.drop 1 } hl hw
      simpa using this

theorem c3_persistence_witness :
    (enqueueRequest [("e", RValue.str "pv")] "http://collector.example" c5State).st.storage
        c5State.cfg.queueName
      = some (.arr (c5State.outQueue ++ [enqEntry c5State.cfg [("e", RValue.str "pv")],
                                         enqEntry c5State.cfg [("e", RValue.str "pv")]])) :=
  c3_persistence_discipline.1 _ _ _ rfl rfl (fun _ => by decide)

/-- C5: outcome handling of one send of k selected entries. On transport
acceptance exactly k entries are removed from the queue head, the updated
queue is persisted (when persistence is enabled and writable), no error
is raised, and draining continues: the engine stays in Draining while
entries remain and returns to Idle with no further send when the queue is
exhausted. On transport rejection or error the queue and the store are
byte-for-byte untouched and the engine returns to Idle. Stated for the
POST callbacks and for the Beacon image callbacks (k = 1). -/
theorem c5_send_outcomes (st : EngineState) (k : Nat) (u : String)
    (hurl : st.configCollectorUrl = some u)
    (hk : scrubQueue (st.outQueue.drop k) = st.outQueue.drop k)
    (h1 : scrubQueue (st.outQueue.drop 1) = st.outQueue.drop 1) :
    ((xhrOnSuccess k st).st.outQueue = st.outQueue.drop k ∧
     (xhrOnSuccess k st).err = none ∧
     (st.cfg.useLocalStorage = true → st.cfg.storeWritable = true →
        (xhrOnSuccess k st).st.storage st.cfg.queueName = some (.arr (st.outQueue.drop k))) ∧
     (xhrOnSuccess k st).st.executingQueue = !(st.outQueue.drop k).isEmpty ∧
     ((st.outQueue.drop k).isEmpty = true → (xhrOnSuccess k st).sends = [])) ∧
    ((xhrOnFailure st).outQueue = st.outQueue ∧
     (xhrOnFailure st).storage = st.storage ∧
     (xhrOnFailure st).executingQueue = false) ∧
    ((imageOnLoad st).st.outQueue = st.outQueue.drop 1 ∧
     (imageOnLoad st).err = none ∧
     (st.cfg.useLocalStorage = true → st.cfg.storeWritable = true →
        (imageOnLoad st).st.storage st.cfg.queueName = some (.arr (st.outQueue.drop 1))) ∧
     (imageOnLoad st).st.executingQueue = !(st.outQueue.drop 1).isEmpty) ∧
    ((imageOnError st).outQueue = st.outQueue ∧
     (imageOnError st).storage = st.storage ∧
     (imageOnError st).executingQueue = false) := by
  have hq : (persistQueue { st with outQueue := st.outQueue.drop k }).outQueue
      = st.outQueue.drop k := by rw [persistQueue_outQueue]
  have hu2 : (persistQueue { st with outQueue := st.outQueue.drop k }).configCollectorUrl
      = some u := by rw [persistQueue_url]; exact hurl
  have hq1 : (persistQueue { st with outQueue := st.outQueue.drop 1 }).outQueue
      = st.outQueue.drop 1 := by rw [persistQueue_outQueue]
  have hu1 : (persistQueue { st with outQueue := st.outQueue.drop 1 }).configCollectorUrl
      = some u := by rw [persistQueue_url]; exact hurl
  refine ⟨⟨?_, ?_, ?_, ?_, ?_⟩, ⟨rfl, rfl, rfl⟩, ⟨?_, ?_, ?_, ?_⟩, rfl, rfl, rfl⟩
  · unfold xhrOnSuccess
    rw [executeQueue_outQueue, hq, hk]
  · exact executeQueue_err_none _ u hu2
  · intro hl hw
    unfold xhrOnSuccess
    rw [executeQueue_storage]
    have := persistQueue_storage_hit { st with outQueue := st.outQueue.drop k } hl hw
    simpa using this
  · unfold xhrOnSuccess
    rw [executeQueue_executing _ u hu2, hq, hk]
  · intro hempty
    unfold xhrOnSuccess
    apply executeQueue_sends_empty
    rw [hq, hk]
    exact List.isEmpty_iff.mp hempty
  · unfold imageOnLoad
    rw [executeQueue_outQueue, hq1, h1]
  · exact executeQueue_err_none _ u hu1
  · intro hl hw
    unfold imageOnLoad
    rw [executeQueue_storage]
    have := persistQueue_storage_hit { st with outQueue := st.outQueue.drop 1 } hl hw
    simpa using this
  · unfold imageOnLoad
    rw [executeQueue_executing _ u hu1, hq1, h1]

theorem c5_send_outcomes_witness :
    (xhrOnSuccess 1 c5State).st.outQueue = c5State.outQueue.drop 1 :=
  (c5_send_outcomes c5State 1
    "http://collector.example/com.snowplowanalytics.snowplow/tp2" rfl rfl rfl).1.1

theorem scrubQueue_append_bad (bad rest : List JValue)
    (hb : ∀ e ∈ bad, jsTypeofIsStringOrObject e = false) :
    scrubQueue (bad ++ rest) = scrubQueue rest := by
  induction bad with
  | nil => rfl
  | cons e bs ih =>
    have he : jsTypeofIsStringOrObject e = false := hb e (by simp)
    simp only [List.cons_append, scrubQueue, List.dropWhile_cons, he]
    simpa [scrubQueue] using ih (fun x hx => hb x (by simp [hx]))

/-- C6 counterexample: a JSON null is not a recognized Entry variant in
either transport mode, yet the scrub does not remove it from the head of
the queue, because typeof null is object in JavaScript. -/
theorem c6_null_survives_scrub :
    isRecognizedEntry true JValue.null = false ∧
    isRecognizedEntry false JValue.null = false ∧
    scrubQueue [JValue.null, JValue.str "?e=pv"] = [JValue.null, JValue.str "?e=pv"] :=
  ⟨rfl, rfl, rfl⟩

/-- C6 amended: on entering a drain, leading entries whose runtime type
is neither string nor object (numbers and booleans) are removed, for any
length of such a prefix; a corrupt leading value of string or object
runtime type (null, arrays, malformed objects) is not removed. If the
scrub empties the queue the engine returns to Idle without sending, and
a queue with one such malformed leading entry followed by valid entries
discards the malformed entry on the first drain and proceeds to drain
the valid ones. -/
theorem c6_scrub_behavior :
    (∀ bad rest : List JValue, (∀ e ∈ bad, jsTypeofIsStringOrObject e = false) →
        scrubQueue (bad ++ rest) = scrubQueue rest) ∧
    (∀ st : EngineState, scrubQueue st.outQueue = [] →
        executeQueue st
          = { st := { st with outQueue := [], executingQueue := false },
              sends := [], err := none }) ∧
    (∀ (st : EngineState) (n : Int) (r0 : JValue) (rs : List JValue) (u : String),
        st.outQueue = JValue.num n :: r0 :: rs →
        scrubQueue (r0 :: rs) = r0 :: rs →
        st.configCollectorUrl = some u →
        (executeQueue st).st.outQueue = r0 :: rs ∧
        (executeQueue st).st.executingQueue = true ∧
        (executeQueue st).err = none ∧
        (st.cfg.usePost = false →
          (executeQueue st).sends = [SendAction.getImg u r0])) := by
  refine ⟨scrubQueue_append_bad, ?_, ?_⟩
  · intro st h
    unfold executeQueue
    rw [h]
    rfl
  · intro st n r0 rs u hq hs hu
    have hscrub : scrubQueue st.outQueue = r0 :: rs := by
      rw [hq]
      have : JValue.num n :: r0 :: rs = [JValue.num n] ++ (r0 :: rs) := rfl
      rw [this, scrubQueue_append_bad [JValue.num n] _ (by simp [jsTypeofIsStringOrObject]), hs]
    refine ⟨?_, ?_, ?_, ?_⟩
    · rw [executeQueue_outQueue, hscrub]
    · rw [executeQueue_executing _ u hu, hscrub]
      rfl
    · exact executeQueue_err_none _ u hu
    · intro hpost
      unfold executeQueue
      rw [hscrub, hu]
      simp [hpost]

theorem c6_scrub_witness :
    (executeQueue c6State).st.outQueue = [JValue.str "?e=pv"] ∧
    (executeQueue c6State).sends
      = [SendAction.getImg "http://collector.example/i" (JValue.str "?e=pv")] :=
  ⟨(c6_scrub_behavior.2.2 c6State 7 _ [] _ rfl rfl rfl).1,
   (c6_scrub_behavior.2.2 c6State 7 _ [] _ rfl rfl rfl).2.2.2 rfl⟩

/-- C7: in Batch mode an event whose encoded memorySize reaches the byte
budget is rejected: the warning fires, the state (queue, store, flags,
URL) is left entirely unchanged, no send is issued and no error is
raised. -/
theorem c7_capacity_reject (request : List (String × RValue)) (url : String)
    (st : EngineState) (hpost : st.cfg.usePost = true)
    (hsize : st.cfg.maxBytes ≤ (getBody request).memorySize) :
    (enqueueRequest request url st).warned = true ∧
    (enqueueRequest request url st).st = st ∧
    (enqueueRequest request url st).sends = [] ∧
    (enqueueRequest request url st).err = none := by
  unfold enqueueRequest
  dsimp only
  rw [if_pos ⟨hpost, hsize⟩]
  exact ⟨rfl, rfl, rfl, rfl⟩

theorem c7_capacity_witness :
    (enqueueRequest [("e", RValue.str "pv")] "http://collector.example" c7State).warned = true ∧
    (enqueueRequest [("e", RValue.str "pv")] "http://collector.example" c7State).st = c7State :=
  ⟨(c7_capacity_reject _ _ c7State rfl (by decide)).1,
   (c7_capacity_reject _ _ c7State rfl (by decide)).2.1⟩

/-- C9: when a drain is attempted with a non-empty (post-scrub) queue and
no collector URL configured, the configuration error is thrown to the
caller, no send is issued, the engine keeps its previous draining state
(it does not transition to Draining), and the store, the URL and the
queue (beyond the scrub itself) are left intact. -/
theorem c9_no_url_error (st : EngineState)
    (hurl : st.configCollectorUrl = none)
    (hne : scrubQueue st.outQueue ≠ []) :
    (executeQueue st).err = some noCollectorMsg ∧
    (executeQueue st).sends = [] ∧
    (executeQueue st).st.outQueue = scrubQueue st.outQueue ∧
    (executeQueue st).st.executingQueue = st.executingQueue ∧
    (executeQueue st).st.storage = st.storage ∧
    (executeQueue st).st.configCollectorUrl = st.configCollectorUrl := by
  have hempty : (scrubQueue st.outQueue).isEmpty = false := by
    simpa [List.isEmpty_iff] using hne
  unfold executeQueue
  rw [hurl]
  dsimp only
  simp [hempty]

theorem c9_no_url_witness :
    (executeQueue c9State).err = some noCollectorMsg ∧
    (executeQueue c9State).sends = [] :=
  ⟨(c9_no_url_error c9State rfl (by simp [c9State, scrubQueue, jsTypeofIsStringOrObject])).1,
   (c9_no_url_error c9State rfl (by simp [c9State, scrubQueue, jsTypeofIsStringOrObject])).2.1⟩

theorem suffix_scrub_append (l : List JValue) (a b : JValue)
    (ha : jsTypeofIsStringOrObject a = true) :
    [a, b] <:+ scrubQueue (l ++ [a, b]) := by
  induction l with
  | nil =>
    simp only [List.nil_append, scrubQueue, List.dropWhile_cons, ha]
    simp
  | cons c cs ih =>
    by_cases hc : jsTypeofIsStringOrObject c = true
    · simp only [List.cons_append, scrubQueue, List.dropWhile_cons, hc, Bool.not_true,
        Bool.false_eq_true, if_false]
      exact (List.suffix_append cs [a, b]).trans (List.suffix_cons c (cs ++ [a, b]))
    · have hc2 : jsTypeofIsStringOrObject c = false := by
        cases hcv : jsTypeofIsStringOrObject c
        · rfl
        · exact absurd hcv hc
      simp only [List.cons_append, scrubQueue, List.dropWhile_cons, hc2, Bool.not_false, if_true]
      exact ih

/-- C10: in GET (Beacon) mode enqueue performs no capacity check: for any
field mapping, whatever the length of its encoded query string, no
size-limit warning fires, no error is raised, and the encoded entry is
appended at the tail of the queue (twice, through the duplicated push
recorded under C1). -/
theorem c10_get_no_capacity_check (request : List (String × RValue)) (url : String)
    (st : EngineState) (hget : st.cfg.usePost = false) :
    (enqueueRequest request url st).warned = false ∧
    (enqueueRequest request url st).err = none ∧
    [JValue.str (getQuerystring st.cfg.enc request), JValue.str (getQuerystring st.cfg.enc request)]
      <:+ (enqueueRequest request url st).st.outQueue := by
  have hno : ¬(st.cfg.usePost = true ∧ st.cfg.maxBytes ≤ (getBody request).memorySize) := by
    rintro ⟨hp, -⟩
    rw [hget] at hp
    exact Bool.noConfusion hp
  have he : enqEntry st.cfg request = .str (getQuerystring st.cfg.enc request) := by
    simp [enqEntry, hget]
  unfold enqueueRequest
  dsimp only
  rw [if_neg hno, he]
  by_cases hl : st.cfg.useLocalStorage = true
  · rw [if_pos hl]
    split
    · refine ⟨rfl, ?_, ?_⟩
      · refine executeQueue_err_none _ (url ++ path st.cfg.usePost) ?_
        rw [attemptWrite_url]
      · rw [executeQueue_outQueue, attemptWrite_outQueue]
        exact suffix_scrub_append _ _ _ rfl
    · refine ⟨rfl, rfl, ?_⟩
      rw [attemptWrite_outQueue]
      exact List.suffix_append _ _
  · rw [if_neg hl]
    split
    · refine ⟨rfl, ?_, ?_⟩
      · exact executeQueue_err_none _ (url ++ path st.cfg.usePost) rfl
      · rw [executeQueue_outQueue]
        exact suffix_scrub_append _ _ _ rfl
    · exact ⟨rfl, rfl, List.suffix_append _ _⟩

theorem c10_get_witness :
    (enqueueRequest [("e", RValue.str "pv")] "http://collector.example" c9State).warned = false :=
  (c10_get_no_capacity_check [("e", RValue.str "pv")] "http://collector.example" c9State rfl).1

theorem utf16_eq_utf8_of_ascii (l : List Char) (h : ∀ c ∈ l, c.toNat < 128) :
    (l.map charUtf16Units).sum = (l.map utf8Bytes).sum := by
  induction l with
  | nil => rfl
  | cons c cs ih =>
    have hc : c.toNat < 128 := h c (by simp)
    have h1 : charUtf16Units c = 1 := by unfold charUtf16Units; rw [if_pos (by omega)]
    have h2 : utf8Bytes c = 1 := by unfold utf8Bytes; rw [if_pos hc]
    simp [h1, h2, ih (fun x hx => h x (by simp [hx]))]

theorem jsLength_eq_byteLength_of_ascii (s : String)
    (h : ∀ c ∈ s.data, c.toNat < 128) : jsLength s = byteLength s :=
  utf16_eq_utf8_of_ascii s.data h

/-- C8 counterexample: for the single-field mapping a maps-to e-acute the
JSON-serialized form occupies nine UTF-16 code units but ten bytes, and
getBody stores nine: memorySize is not the length in bytes of the
serialized form. -/
theorem c8_bytes_counterexample :
    (getBody [("a", RValue.str "é")]).memorySize = 9 ∧
    byteLength (jsonStringifyStrObj ((getBody [("a", RValue.str "é")]).cleanedRequest)) = 10 :=
  ⟨rfl, rfl⟩

/-- C8 amended: getBody coerces every field value to its string form and
computes memorySize as the JS string length (UTF-16 code units) of the
JSON-serialized string-valued mapping; that count equals the length in
bytes exactly when the serialized form is ASCII. -/
theorem c8_getBody_size (request : List (String × RValue))
    (h : ∀ c ∈ (jsonStringifyStrObj (request.map fun p => (p.1, p.2.asString))).data,
      c.toNat < 128) :
    (getBody request).cleanedRequest = request.map (fun p => (p.1, p.2.asString)) ∧
    (getBody request).memorySize
      = (byteLength (jsonStringifyStrObj ((getBody request).cleanedRequest)) : Int) := by
  refine ⟨rfl, ?_⟩
  have hlen := jsLength_eq_byteLength_of_ascii _ h
  show ((jsLength (jsonStringifyStrObj (request.map fun p => (p.1, p.2.asString))) : Nat) : Int) = _
  rw [hlen]
  rfl

theorem c8_getBody_witness :
    (getBody [("a", RValue.str "x")]).memorySize
      = (byteLength (jsonStringifyStrObj ((getBody [("a", RValue.str "x")]).cleanedRequest)) : Int) :=
  (c8_getBody_size [("a", RValue.str "x")] (by decide)).2

end OutQueue
